import Mathlib

/-!
Shallow embedding of the KingDB front-end (src/interface/kingdb.cc) in Lean 4.

The database handle methods Get, Put, PutChunk, PutChunkValidSize, Delete,
NewSnapshot and NewIterator are translated into pure Lean functions.  External
collaborators (the storage engine, the write buffer, the compressor) are out of
scope of the repository sources and are passed in as oracle values: the status
a collaborator call returns, the bytes a compressor call produces, and so on.
The thread-local streaming state of one writer (ts_compression_enabled_,
ts_offset_, the cumulative compressor output size, the running CRC32 register)
is threaded explicitly through the functions as a TLS record.  All machine
integers of the source are uint64; arithmetic on them is modelled on Nat with
explicit reduction modulo 2^64.
-/

namespace KingDB

/-- 2^64, the modulus of uint64 arithmetic. -/
def M64 : Nat := 18446744073709551616

/-- uint64 addition: wraps modulo 2^64. -/
def u64add (a b : Nat) : Nat := (a + b) % M64

/-- uint64 subtraction: wraps modulo 2^64. -/
def u64sub (a b : Nat) : Nat := (a % M64 + (M64 - b % M64)) % M64

/-- The Status result type (OK, NotFound, DeleteOrder, IOError,
InvalidArgument), each non-OK variant carrying a message. -/
inductive Status where
  | ok : Status
  | notFound : String → Status
  | deleteOrder : String → Status
  | ioError : String → Status
  | invalidArgument : String → Status
deriving Repr, DecidableEq

/-- Status::IsOK(). -/
def Status.IsOK : Status → Bool
  | .ok => true
  | _ => false

/-- Status::IsNotFound(). -/
def Status.IsNotFound : Status → Bool
  | .notFound _ => true
  | _ => false

/-- Status::IsDeleteOrder(). -/
def Status.IsDeleteOrder : Status → Bool
  | .deleteOrder _ => true
  | _ => false

/-- KingDB::Get (kingdb.cc lines 9-32).  The write buffer's Get result and the
storage engine's Get result are oracle inputs; the function returns the status
produced by the method.  The source consults the buffer first, rewrites a
DeleteOrder to NotFound, falls through to the engine on NotFound (returning the
engine result unchanged in each of its three logging branches), and returns any
other buffer status directly. -/
def get (is_closed : Bool) (wbGet : Status) (seGet : Status) : Status :=
  if is_closed then Status.ioError "The database is not open"
  else
    let s := wbGet
    if s.IsDeleteOrder then Status.notFound "Unable to find entry"
    else if s.IsNotFound then
      let s2 := seGet
      if s2.IsNotFound then s2
      else if s2.IsOK then s2
      else s2
    else s

/-- KingDB::Delete (kingdb.cc lines 202-209): closed check, then the engine's
FileSystemStatus is returned if not OK, otherwise the write buffer's Delete
status. -/
def deleteKey (is_closed : Bool) (fsStatus : Status) (wbDelete : Status) : Status :=
  if is_closed then Status.ioError "The database is not open"
  else if !fsStatus.IsOK then fsStatus
  else wbDelete

/-- One step of the (reflected, polynomial 0xEDB88320) CRC-32 bit loop.
Modelled from the spec: the CRC32 unit itself is not among the repository
sources under src/; the spec fixes it to the standard CRC-32 used by the
engine's record format. -/
def crc32bit (x : Nat) : Nat :=
  if x % 2 = 1 then (x / 2) ^^^ 0xEDB88320 else x / 2

/-- Fold one input byte into the CRC-32 register. -/
def crc32byte (crc b : Nat) : Nat :=
  let x := crc ^^^ (b % 256)
  crc32bit (crc32bit (crc32bit (crc32bit (crc32bit (crc32bit (crc32bit (crc32bit x)))))))

/-- crc32_.stream(bytes, len): fold a byte sequence into the register. -/
def crc32stream (crc : Nat) (bytes : List Nat) : Nat := bytes.foldl crc32byte crc

/-- crc32_.ResetThreadLocalStorage(): the fresh CRC-32 register value. -/
def crc32init : Nat := 0xFFFFFFFF

/-- crc32_.get(): finalize the register. -/
def crc32get (crc : Nat) : Nat := crc ^^^ 0xFFFFFFFF

/-- The per-writer thread-local streaming state used across the chunks of one
entry: ts_compression_enabled_ and ts_offset_ (kingdb.cc), the compressor's
cumulative emitted-frame size (compressor_.size_compressed(), modelled from
the spec because the compressor sources are not under src/: it is the
cumulative number of bytes emitted across frames since the last reset, with
Compress adding its output frame length and AdjustCompressedSize applying a
signed correction), and the running CRC-32 register of crc32_. -/
structure TLS where
  compression_enabled : Nat
  ts_offset : Nat
  compressor_size : Nat
  crc : Nat
deriving Repr, DecidableEq

/-- The result of one compressor_.Compress call on a chunk: the returned
Status and the produced frame bytes (whose length is the out parameter
size_compressed).  Passed to the model as an oracle since the compressor is an
external collaborator of the front-end. -/
structure CompressResult where
  status : Status
  out : List Nat
deriving Repr, DecidableEq

/-- The observable outcome of one PutChunkValidSize call: the returned Status,
the updated thread-local state, whether the chunk was dispatched to the write
buffer's PutChunk, and the values of the locals offset_chunk_compressed
(occ), chunk_final->size() (cfs), size_value_compressed (svc) and crc32 at the
point the call returned. -/
structure PCVSResult where
  status : Status
  tls : TLS
  dispatched : Bool
  occ : Nat
  cfs : Nat
  svc : Nat
  crc : Nat
deriving Repr, DecidableEq

/-- Step-1 classification of PutChunkValidSize (kingdb.cc lines 97-100):
compression is performed unless the chunk is empty or the configured
compression type is kNoCompression. -/
def doCompression (compressionNone : Bool) (chunkSize : Nat) : Bool :=
  !(decide (chunkSize = 0) || compressionNone)

/-- The tail of KingDB::PutChunkValidSize (kingdb.cc lines 165-198), shared by
the uncompressed and compressed branches: last-chunk size_value_compressed
finalization, CRC-32 accumulation, the bounds assertion, and dispatch to the
write buffer.  chunkSize is the original chunk->size(), cfd and cfs the data
and size of chunk_final, occ the current offset_chunk_compressed, wbStatus the
oracle status of wb_->PutChunk. -/
def pcvsFinish (do_compression is_first_chunk is_last_chunk : Bool)
    (pad : Nat) (wbStatus : Status) (key : List Nat)
    (chunkSize size_value : Nat)
    (tls : TLS) (occ : Nat) (cfd : List Nat) (cfs : Nat) : PCVSResult :=
  let svc :=
    if do_compression && is_last_chunk then
      if tls.compression_enabled = 1 then tls.compressor_size
      else u64add occ chunkSize
    else 0
  let tls := if is_first_chunk then { tls with crc := crc32stream crc32init key } else tls
  let tls := { tls with crc := crc32stream tls.crc cfd }
  let crcv := if is_last_chunk then crc32get tls.crc else 0
  let size_padding := if do_compression then pad else 0
  if u64add occ cfs > u64add size_value size_padding then
    { status := Status.ioError "Prevented write to occur outside of the allocated memory.",
      tls := tls, dispatched := false, occ := occ, cfs := cfs, svc := svc, crc := crcv }
  else
    { status := wbStatus, tls := tls, dispatched := true,
      occ := occ, cfs := cfs, svc := svc, crc := crcv }

/-- KingDB::PutChunkValidSize (kingdb.cc lines 71-199).  Oracle inputs:
fsStatus is se_->FileSystemStatus(); compressionNone is the test
db_options_.compression.type == kNoCompression; frame_header is
compressor_.size_frame_header(); pad is
EntryHeader::CalculatePaddingSize(size_value); comp is the result of the
compressor_.Compress call on this chunk; wbStatus is the status of the final
wb_->PutChunk.  key and chunkData are the visible bytes of the key and the
chunk, tls0 the incoming thread-local state. -/
def putChunkValidSize (is_closed : Bool) (fsStatus : Status)
    (compressionNone : Bool) (frame_header : Nat) (pad : Nat)
    (comp : CompressResult) (wbStatus : Status)
    (tls0 : TLS) (key chunkData : List Nat)
    (offset_chunk size_value : Nat) : PCVSResult :=
  if is_closed then
    { status := Status.ioError "The database is not open", tls := tls0,
      dispatched := false, occ := offset_chunk, cfs := chunkData.length, svc := 0, crc := 0 }
  else if !fsStatus.IsOK then
    { status := fsStatus, tls := tls0, dispatched := false,
      occ := offset_chunk, cfs := chunkData.length, svc := 0, crc := 0 }
  else
    let chunkSize := chunkData.length
    let is_first_chunk : Bool := decide (offset_chunk = 0)
    let is_last_chunk : Bool := decide (u64add chunkSize offset_chunk = size_value)
    let do_compression : Bool := doCompression compressionNone chunkSize
    -- lines 102-105: entry boot of the thread-local scalars
    let tls := if is_first_chunk then
        { tls0 with compression_enabled := 1, ts_offset := 0 } else tls0
    -- lines 107-114: fallback offset accounting once compression is disabled
    let st :=
      if tls.compression_enabled = 0 then
        (tls.ts_offset, { tls with ts_offset := u64add tls.ts_offset chunkSize })
      else (offset_chunk, tls)
    let occ := st.1
    let tls := st.2
    if !do_compression || tls.compression_enabled = 0 then
      -- line 117: chunk_final = chunk
      pcvsFinish do_compression is_first_chunk is_last_chunk pad wbStatus key
        chunkSize size_value tls occ chunkData chunkSize
    else
      -- lines 119-162: the compression branch
      let tls := if is_first_chunk then { tls with compressor_size := 0 } else tls
      let occ := tls.compressor_size
      let s := comp.status
      let out_len := comp.out.length
      let tls := { tls with compressor_size := u64add tls.compressor_size out_len }
      -- lines 136-149: space-budget check and uncompressed-frame fallback
      let size_remaining := u64sub size_value offset_chunk
      let space_left := u64sub (u64add size_value pad) occ
      let fb :=
        u64add (u64sub size_remaining chunkSize) frame_header > u64sub space_left out_len
      let res : TLS × Nat × List Nat :=
        if fb then
          let cfd := List.replicate frame_header 0 ++ chunkData
          let tls := { tls with compressor_size := u64sub tls.compressor_size out_len }
          let out_len2 := u64add chunkSize frame_header
          let tls := { tls with compression_enabled := 0,
                                ts_offset := u64add tls.compressor_size out_len2 }
          (tls, out_len2, cfd)
        else (tls, out_len, comp.out)
      let tls := res.1
      let out_len := res.2.1
      let cfd := res.2.2
      if !s.IsOK then
        -- line 151: compressor failure is returned after the fallback block ran
        { status := s, tls := tls, dispatched := false,
          occ := occ, cfs := out_len, svc := 0, crc := 0 }
      else
        pcvsFinish do_compression is_first_chunk is_last_chunk pad wbStatus key
          chunkSize size_value tls occ cfd out_len

/-- One submission made by KingDB::PutChunk to PutChunkValidSize: the
offset_chunk argument passed, the size of the sub-chunk passed, and whether the
sub-chunk was a freshly allocated non-owning window (a new SimpleByteArray
over chunk->data() + offset) rather than the input chunk itself reused with
set_offset. -/
structure Sub where
  offset : Nat
  size : Nat
  window : Bool
deriving Repr, DecidableEq

/-- The splitting loop of KingDB::PutChunk (kingdb.cc lines 52-65).  maxc is
db_options_.storage__maximum_chunk_size and S the cached chunk->size()
(size_chunk).  offset is the loop variable, idx counts submissions (indexing
the oracle pcvs giving each PutChunkValidSize status), and curOff is the
chunk's current logical offset, so that the live chunk->size() read in the
loop body is S - curOff (it changes only when the loop reaches the final
sub-chunk and calls chunk->set_offset(offset)).  Returns the final status and
the list of submissions made, in order. -/
def putChunkLoop (maxc S : Nat) (pcvs : Nat → Status) (offset_chunk : Nat)
    (offset idx curOff : Nat) : Status × List Sub :=
  if h : 0 < maxc ∧ offset < S then
    if offset + maxc < S - curOff then
      let sub : Sub := ⟨offset_chunk + offset, maxc, true⟩
      let s := pcvs idx
      if s = Status.ok then
        let r := putChunkLoop maxc S pcvs offset_chunk (offset + maxc) (idx + 1) curOff
        (r.1, sub :: r.2)
      else (s, [sub])
    else
      let sub : Sub := ⟨offset_chunk + offset, S - offset, false⟩
      let s := pcvs idx
      if s = Status.ok then
        let r := putChunkLoop maxc S pcvs offset_chunk (offset + maxc) (idx + 1) offset
        (r.1, sub :: r.2)
      else (s, [sub])
  else (Status.ok, [])
termination_by S - offset
decreasing_by all_goals (simp_wf; omega)

/-- KingDB::PutChunk (kingdb.cc lines 40-68).  S is the incoming
chunk->size(); pcvs gives, per submission index, the status returned by
PutChunkValidSize for that submission.  Returns the final status and the list
of submissions made.  When size_value fits in one chunk the input is submitted
directly (one non-window submission); otherwise the splitting loop runs. -/
def putChunk (is_closed : Bool) (maxc : Nat) (pcvs : Nat → Status)
    (S offset_chunk size_value : Nat) : Status × List Sub :=
  if is_closed then (Status.ioError "The database is not open", [])
  else if size_value ≤ maxc then (pcvs 0, [⟨offset_chunk, S, false⟩])
  else putChunkLoop maxc S pcvs offset_chunk 0 0 0

/-- KingDB::Put (kingdb.cc lines 35-37): PutChunk with offset 0 and
size_value = chunk->size(). -/
def put (is_closed : Bool) (maxc : Nat) (pcvs : Nat → Status) (S : Nat) :
    Status × List Sub :=
  putChunk is_closed maxc pcvs S 0 S

/-- The read-only StorageEngine view constructed by NewSnapshot, captured by
its constructor arguments (kingdb.cc lines 224-229): the database name, the
read-only flag, the ignore set of file ids, and the fileid_end boundary. -/
structure ROEngine where
  dbname : String
  readonly : Bool
  ignore : List Nat
  fileid_end : Nat
deriving Repr, DecidableEq

/-- The Snapshot built by NewSnapshot, captured by its constructor arguments
(kingdb.cc lines 231-236): the database name, the live engine (identified by
an opaque tag), the read-only engine view, the ordered file-id list for
iteration, and the snapshot id. -/
structure SnapshotRec where
  dbname : String
  se_live : Nat
  ro : ROEngine
  fileids : List Nat
  snapshot_id : Nat
deriving Repr, DecidableEq

/-- The storage-engine oracle for NewSnapshot: the fileid_end returned by
se_->FlushCurrentFileForSnapshot(), the status and outputs of
se_->GetNewSnapshotData(), and GetFileidsIterator() of the constructed
read-only engine as a function of that engine's ignore set and fileid_end. -/
structure EngineOracle where
  fileid_end : Nat
  snapStatus : Status
  snapshot_id : Nat
  fileids_ignore : List Nat
  fileidsOf : List Nat → Nat → List Nat

/-- The externally visible calls NewSnapshot makes, in order. -/
inductive SnapEvent where
  | flushWB : SnapEvent
  | sealFile : SnapEvent
  | getSnapshotData : SnapEvent
  | newReadonlyEngine : String → Bool → List Nat → Nat → SnapEvent
  | getFileidsIterator : SnapEvent
  | buildSnapshot : Nat → SnapEvent
deriving Repr, DecidableEq

/-- KingDB::NewSnapshot (kingdb.cc lines 212-238): flush the write buffer,
seal the current append file, obtain snapshot data (aborting with a null
snapshot if that fails), construct the read-only engine view, fetch the
ordered file-id list, and build the snapshot.  Returns the ordered trace of
external calls together with the snapshot (none models the nullptr return). -/
def newSnapshot (is_closed : Bool) (dbname : String) (se_live : Nat)
    (o : EngineOracle) : List SnapEvent × Option SnapshotRec :=
  if is_closed then ([], none)
  else
    let fileid_end := o.fileid_end
    if !o.snapStatus.IsOK then
      ([SnapEvent.flushWB, SnapEvent.sealFile, SnapEvent.getSnapshotData], none)
    else
      let ro : ROEngine := ⟨dbname, true, o.fileids_ignore, fileid_end⟩
      let fileids := o.fileidsOf o.fileids_ignore fileid_end
      ([SnapEvent.flushWB, SnapEvent.sealFile, SnapEvent.getSnapshotData,
        SnapEvent.newReadonlyEngine dbname true o.fileids_ignore fileid_end,
        SnapEvent.getFileidsIterator,
        SnapEvent.buildSnapshot o.snapshot_id],
       some ⟨dbname, se_live, ro, fileids, o.snapshot_id⟩)

/-- The outcome of KingDB::NewIterator: a nullptr return, a null-pointer
dereference of the snapshot (undefined behavior in the source), or an iterator
obtained from (and back-referencing) the snapshot. -/
inductive IterResult where
  | null : IterResult
  | nullDeref : IterResult
  | iter : SnapshotRec → IterResult
deriving Repr, DecidableEq

/-- KingDB::NewIterator (kingdb.cc lines 241-248): closed check, then
NewSnapshot, then unconditionally snapshot->NewIterator(read_options).  The
source performs no null check on the snapshot, so a null snapshot is
dereferenced; the model makes that outcome explicit as nullDeref. -/
def newIterator (is_closed : Bool) (dbname : String) (se_live : Nat)
    (o : EngineOracle) : IterResult :=
  if is_closed then IterResult.null
  else
    match (newSnapshot false dbname se_live o).2 with
    | none => IterResult.nullDeref
    | some snap => IterResult.iter snap

lemma pcvsFinish_tls_compression_enabled (dc fc lc : Bool) (pad : Nat) (wb : Status)
    (key : List Nat) (cs sv : Nat) (tls : TLS) (occ : Nat) (cfd : List Nat) (cfs : Nat) :
    (pcvsFinish dc fc lc pad wb key cs sv tls occ cfd cfs).tls.compression_enabled
      = tls.compression_enabled := by
  cases dc <;> cases fc <;> cases lc <;> simp [pcvsFinish] <;> split <;> simp

lemma pcvsFinish_tls_ts_offset (dc fc lc : Bool) (pad : Nat) (wb : Status)
    (key : List Nat) (cs sv : Nat) (tls : TLS) (occ : Nat) (cfd : List Nat) (cfs : Nat) :
    (pcvsFinish dc fc lc pad wb key cs sv tls occ cfd cfs).tls.ts_offset
      = tls.ts_offset := by
  cases dc <;> cases fc <;> cases lc <;> simp [pcvsFinish] <;> split <;> simp

lemma pcvsFinish_tls_compressor_size (dc fc lc : Bool) (pad : Nat) (wb : Status)
    (key : List Nat) (cs sv : Nat) (tls : TLS) (occ : Nat) (cfd : List Nat) (cfs : Nat) :
    (pcvsFinish dc fc lc pad wb key cs sv tls occ cfd cfs).tls.compressor_size
      = tls.compressor_size := by
  cases dc <;> cases fc <;> cases lc <;> simp [pcvsFinish] <;> split <;> simp

lemma pcvsFinish_occ (dc fc lc : Bool) (pad : Nat) (wb : Status)
    (key : List Nat) (cs sv : Nat) (tls : TLS) (occ : Nat) (cfd : List Nat) (cfs : Nat) :
    (pcvsFinish dc fc lc pad wb key cs sv tls occ cfd cfs).occ = occ := by
  cases dc <;> cases fc <;> cases lc <;> simp [pcvsFinish] <;> split <;> simp

lemma pcvsFinish_cfs (dc fc lc : Bool) (pad : Nat) (wb : Status)
    (key : List Nat) (cs sv : Nat) (tls : TLS) (occ : Nat) (cfd : List Nat) (cfs : Nat) :
    (pcvsFinish dc fc lc pad wb key cs sv tls occ cfd cfs).cfs = cfs := by
  cases dc <;> cases fc <;> cases lc <;> simp [pcvsFinish] <;> split <;> simp

/-- Claim C3: on an open database, Get returns NotFound when the write buffer
returns DeleteOrder; when the write buffer returns NotFound, Get returns the
storage engine's result unchanged whatever it is; and any other write-buffer
status is returned directly without consulting the engine. -/
theorem claim_C3 (wbGet seGet : Status) :
    (wbGet.IsDeleteOrder = true → get false wbGet seGet = Status.notFound "Unable to find entry")
    ∧ (wbGet.IsNotFound = true → get false wbGet seGet = seGet)
    ∧ (wbGet.IsDeleteOrder = false → wbGet.IsNotFound = false →
        get false wbGet seGet = wbGet) := by
  refine ⟨?_, ?_, ?_⟩ <;> intro h <;>
    cases wbGet <;> simp_all [get, Status.IsDeleteOrder, Status.IsNotFound]

/-- Witness for claim C3 at concrete statuses: a buffered DeleteOrder is
rewritten to NotFound, and a buffered NotFound defers to the engine value. -/
theorem claim_C3_witness :
    get false (Status.deleteOrder "tombstone") Status.ok = Status.notFound "Unable to find entry"
    ∧ get false (Status.notFound "nf") (Status.ioError "disk") = Status.ioError "disk" :=
  ⟨(claim_C3 (Status.deleteOrder "tombstone") Status.ok).1 rfl,
   (claim_C3 (Status.notFound "nf") (Status.ioError "disk")).2.1 rfl⟩

/-- Claim C7: on a closed database every call to Get, Put, PutChunk,
PutChunkValidSize and Delete returns IOError "The database is not open", for
every input, and NewSnapshot and NewIterator return null. -/
theorem claim_C7 (wbGet seGet fsStatus wbDelete : Status) (maxc : Nat)
    (pcvs : Nat → Status) (S offset_chunk size_value : Nat) (compressionNone : Bool)
    (frame_header pad : Nat) (comp : CompressResult) (wbStatus : Status) (tls0 : TLS)
    (key chunkData : List Nat) (dbname : String) (se_live : Nat) (o : EngineOracle) :
    get true wbGet seGet = Status.ioError "The database is not open"
    ∧ (put true maxc pcvs S).1 = Status.ioError "The database is not open"
    ∧ (putChunk true maxc pcvs S offset_chunk size_value).1
        = Status.ioError "The database is not open"
    ∧ (putChunkValidSize true fsStatus compressionNone frame_header pad comp wbStatus
        tls0 key chunkData offset_chunk size_value).status
        = Status.ioError "The database is not open"
    ∧ deleteKey true fsStatus wbDelete = Status.ioError "The database is not open"
    ∧ newSnapshot true dbname se_live o = ([], none)
    ∧ newIterator true dbname se_live o = IterResult.null :=
  ⟨rfl, rfl, rfl, rfl, rfl, rfl, rfl⟩

/-- Claim C9: when the storage engine's FileSystemStatus is not OK,
PutChunkValidSize on an open database returns that status unchanged, leaves
the whole thread-local streaming state untouched, and dispatches nothing to
the write buffer. -/
theorem claim_C9 (fsStatus : Status) (compressionNone : Bool) (frame_header pad : Nat)
    (comp : CompressResult) (wbStatus : Status) (tls0 : TLS) (key chunkData : List Nat)
    (offset_chunk size_value : Nat) (hfs : fsStatus.IsOK = false) :
    (putChunkValidSize false fsStatus compressionNone frame_header pad comp wbStatus
        tls0 key chunkData offset_chunk size_value).status = fsStatus
    ∧ (putChunkValidSize false fsStatus compressionNone frame_header pad comp wbStatus
        tls0 key chunkData offset_chunk size_value).tls = tls0
    ∧ (putChunkValidSize false fsStatus compressionNone frame_header pad comp wbStatus
        tls0 key chunkData offset_chunk size_value).dispatched = false := by
  unfold putChunkValidSize
  simp [hfs]

/-- Witness for claim C9: a concrete unhealthy-filesystem status is passed
through with the thread-local state intact. -/
theorem claim_C9_witness :
    (putChunkValidSize false (Status.ioError "disk") false 8 0 ⟨Status.ok, []⟩ Status.ok
        ⟨1, 2, 3, 4⟩ [5] [6] 7 9).status = Status.ioError "disk"
    ∧ (putChunkValidSize false (Status.ioError "disk") false 8 0 ⟨Status.ok, []⟩ Status.ok
        ⟨1, 2, 3, 4⟩ [5] [6] 7 9).tls = ⟨1, 2, 3, 4⟩
    ∧ (putChunkValidSize false (Status.ioError "disk") false 8 0 ⟨Status.ok, []⟩ Status.ok
        ⟨1, 2, 3, 4⟩ [5] [6] 7 9).dispatched = false :=
  claim_C9 (Status.ioError "disk") false 8 0 ⟨Status.ok, []⟩ Status.ok
    ⟨1, 2, 3, 4⟩ [5] [6] 7 9 rfl

/-- Claim C5: compression fallback is monotone within an entry: on any chunk
other than a first chunk (offset_chunk nonzero), if the thread-local
compression_enabled flag is already 0 it is still 0 after PutChunkValidSize,
whatever the other inputs and whichever path the call takes. -/
theorem claim_C5 (is_closed : Bool) (fsStatus : Status) (compressionNone : Bool)
    (frame_header pad : Nat) (comp : CompressResult) (wbStatus : Status) (tls0 : TLS)
    (key chunkData : List Nat) (offset_chunk size_value : Nat)
    (hoff : offset_chunk ≠ 0) (hen : tls0.compression_enabled = 0) :
    (putChunkValidSize is_closed fsStatus compressionNone frame_header pad comp wbStatus
        tls0 key chunkData offset_chunk size_value).tls.compression_enabled = 0 := by
  unfold putChunkValidSize
  cases is_closed with
  | true => simpa using hen
  | false =>
    by_cases hfs : fsStatus.IsOK
    · simp only [hfs, Bool.not_true, Bool.false_eq_true, if_false, if_true,
        decide_eq_true_eq, hoff, decide_eq_false, Bool.if_false_left]
      simp [hoff, hen, pcvsFinish_tls_compression_enabled]
    · simpa [hfs] using hen

lemma pcvs_eq_finish (compressionNone : Bool) (frame_header pad : Nat)
    (comp : CompressResult) (wbStatus : Status) (tls0 : TLS) (key chunkData : List Nat)
    (offset_chunk size_value : Nat) (hcomp : comp.status = Status.ok) :
    ∃ tls occ cfd cfs,
      putChunkValidSize false Status.ok compressionNone frame_header pad comp wbStatus
          tls0 key chunkData offset_chunk size_value
        = pcvsFinish (doCompression compressionNone chunkData.length)
            (decide (offset_chunk = 0))
            (decide (u64add chunkData.length offset_chunk = size_value))
            pad wbStatus key chunkData.length size_value tls occ cfd cfs := by
  unfold putChunkValidSize
  simp only [Status.IsOK, Bool.not_true, Bool.false_eq_true, if_false, hcomp]
  repeat first
  | exact ⟨_, _, _, _, rfl⟩
  | split

lemma pcvsFinish_status_bounds (dc fc lc : Bool) (pad : Nat) (wb : Status)
    (key : List Nat) (cs sv : Nat) (tls : TLS) (occ : Nat) (cfd : List Nat) (cfs : Nat) :
    (u64add occ cfs > u64add sv (if dc then pad else 0) →
      (pcvsFinish dc fc lc pad wb key cs sv tls occ cfd cfs).status
          = Status.ioError "Prevented write to occur outside of the allocated memory."
      ∧ (pcvsFinish dc fc lc pad wb key cs sv tls occ cfd cfs).dispatched = false)
    ∧ (¬ u64add occ cfs > u64add sv (if dc then pad else 0) →
      (pcvsFinish dc fc lc pad wb key cs sv tls occ cfd cfs).dispatched = true
      ∧ (pcvsFinish dc fc lc pad wb key cs sv tls occ cfd cfs).status = wb) := by
  constructor
  · intro h
    simp only [pcvsFinish, if_pos h]
    simp
  · intro h
    simp only [pcvsFinish, if_neg h]
    simp

lemma pcvsFinish_svc (dc fc lc : Bool) (pad : Nat) (wb : Status)
    (key : List Nat) (cs sv : Nat) (tls : TLS) (occ : Nat) (cfd : List Nat) (cfs : Nat) :
    (pcvsFinish dc fc lc pad wb key cs sv tls occ cfd cfs).svc
      = if (dc && lc) = true then
          (if (pcvsFinish dc fc lc pad wb key cs sv tls occ cfd cfs).tls.compression_enabled = 1
           then (pcvsFinish dc fc lc pad wb key cs sv tls occ cfd cfs).tls.compressor_size
           else u64add (pcvsFinish dc fc lc pad wb key cs sv tls occ cfd cfs).occ cs)
        else 0 := by
  rw [pcvsFinish_tls_compression_enabled, pcvsFinish_tls_compressor_size, pcvsFinish_occ]
  cases dc <;> cases fc <;> cases lc <;> simp [pcvsFinish] <;> split <;> simp

/-- Claim C6: for a chunk reaching the end of PutChunkValidSize (open
database, healthy filesystem, compressor succeeded), the call fails with the
IOError about a write outside allocated memory, dispatching nothing, exactly
when offset_chunk_compressed + chunk_final.size exceeds size_value +
size_padding, with size_padding = pad when do_compression holds and 0
otherwise; when the bound holds the chunk is dispatched to the write buffer
and its status returned. -/
theorem claim_C6 (compressionNone : Bool) (frame_header pad : Nat)
    (comp : CompressResult) (wbStatus : Status) (tls0 : TLS) (key chunkData : List Nat)
    (offset_chunk size_value : Nat) (hcomp : comp.status = Status.ok) :
    (u64add (putChunkValidSize false Status.ok compressionNone frame_header pad comp wbStatus
          tls0 key chunkData offset_chunk size_value).occ
        (putChunkValidSize false Status.ok compressionNone frame_header pad comp wbStatus
          tls0 key chunkData offset_chunk size_value).cfs
      > u64add size_value (if doCompression compressionNone chunkData.length then pad else 0) →
      (putChunkValidSize false Status.ok compressionNone frame_header pad comp wbStatus
          tls0 key chunkData offset_chunk size_value).status
        = Status.ioError "Prevented write to occur outside of the allocated memory."
      ∧ (putChunkValidSize false Status.ok compressionNone frame_header pad comp wbStatus
          tls0 key chunkData offset_chunk size_value).dispatched = false)
    ∧ (¬ u64add (putChunkValidSize false Status.ok compressionNone frame_header pad comp wbStatus
          tls0 key chunkData offset_chunk size_value).occ
        (putChunkValidSize false Status.ok compressionNone frame_header pad comp wbStatus
          tls0 key chunkData offset_chunk size_value).cfs
      > u64add size_value (if doCompression compressionNone chunkData.length then pad else 0) →
      (putChunkValidSize false Status.ok compressionNone frame_header pad comp wbStatus
          tls0 key chunkData offset_chunk size_value).dispatched = true
      ∧ (putChunkValidSize false Status.ok compressionNone frame_header pad comp wbStatus
          tls0 key chunkData offset_chunk size_value).status = wbStatus) := by
  obtain ⟨tls, occ, cfd, cfs, heq⟩ :=
    pcvs_eq_finish compressionNone frame_header pad comp wbStatus tls0 key chunkData
      offset_chunk size_value hcomp
  rw [heq, pcvsFinish_occ, pcvsFinish_cfs]
  exact pcvsFinish_status_bounds _ _ _ _ _ _ _ _ _ _ _ _

lemma pcvs_cases (compressionNone : Bool) (frame_header pad : Nat)
    (comp : CompressResult) (wbStatus : Status) (tls0 : TLS) (key chunkData : List Nat)
    (offset_chunk size_value : Nat) :
    (∃ tls occ cfd cfs,
      putChunkValidSize false Status.ok compressionNone frame_header pad comp wbStatus
          tls0 key chunkData offset_chunk size_value
        = pcvsFinish (doCompression compressionNone chunkData.length)
            (decide (offset_chunk = 0))
            (decide (u64add chunkData.length offset_chunk = size_value))
            pad wbStatus key chunkData.length size_value tls occ cfd cfs)
    ∨ (putChunkValidSize false Status.ok compressionNone frame_header pad comp wbStatus
          tls0 key chunkData offset_chunk size_value).dispatched = false := by
  unfold putChunkValidSize
  simp only [Status.IsOK, Bool.not_true, Bool.false_eq_true, if_false]
  repeat first
  | exact Or.inl ⟨_, _, _, _, rfl⟩
  | exact Or.inr rfl
  | split

/-- Witness for claim C6 at a concrete input: a 2-byte chunk whose compressed
frame is 10 bytes with no padding slack overruns the 2-byte budget, so the
call fails with the bounds IOError and dispatches nothing. -/
theorem claim_C6_witness :
    (putChunkValidSize false Status.ok false 8 0 ⟨Status.ok, [1, 2, 3, 4, 5, 6, 7, 8, 9, 10]⟩
        Status.ok ⟨0, 0, 0, 0⟩ [107] [97, 98] 0 2).status
      = Status.ioError "Prevented write to occur outside of the allocated memory."
    ∧ (putChunkValidSize false Status.ok false 8 0 ⟨Status.ok, [1, 2, 3, 4, 5, 6, 7, 8, 9, 10]⟩
        Status.ok ⟨0, 0, 0, 0⟩ [107] [97, 98] 0 2).dispatched = false :=
  (claim_C6 false 8 0 ⟨Status.ok, [1, 2, 3, 4, 5, 6, 7, 8, 9, 10]⟩ Status.ok ⟨0, 0, 0, 0⟩
    [107] [97, 98] 0 2 rfl).1 (by decide)

/-- Claim C2: whenever PutChunkValidSize dispatches a chunk to the write
buffer, the size_value_compressed it hands over is: on a last chunk with
compression in effect, the compressor's cumulative size_compressed() if the
thread-local compression_enabled flag is 1 and offset_chunk_compressed plus
the original input chunk's size if it is not; and 0 for every other chunk
(not last, or compression not performed). -/
theorem claim_C2 (compressionNone : Bool) (frame_header pad : Nat)
    (comp : CompressResult) (wbStatus : Status) (tls0 : TLS) (key chunkData : List Nat)
    (offset_chunk size_value : Nat)
    (hdisp : (putChunkValidSize false Status.ok compressionNone frame_header pad comp wbStatus
        tls0 key chunkData offset_chunk size_value).dispatched = true) :
    (putChunkValidSize false Status.ok compressionNone frame_header pad comp wbStatus
        tls0 key chunkData offset_chunk size_value).svc
      = if (doCompression compressionNone chunkData.length
            && decide (u64add chunkData.length offset_chunk = size_value)) = true then
          (if (putChunkValidSize false Status.ok compressionNone frame_header pad comp wbStatus
                tls0 key chunkData offset_chunk size_value).tls.compression_enabled = 1
           then (putChunkValidSize false Status.ok compressionNone frame_header pad comp wbStatus
                tls0 key chunkData offset_chunk size_value).tls.compressor_size
           else u64add (putChunkValidSize false Status.ok compressionNone frame_header pad comp
                wbStatus tls0 key chunkData offset_chunk size_value).occ chunkData.length)
        else 0 := by
  rcases pcvs_cases compressionNone frame_header pad comp wbStatus tls0 key chunkData
      offset_chunk size_value with ⟨tls, occ, cfd, cfs, heq⟩ | hnd
  · rw [heq]
    exact pcvsFinish_svc _ _ _ _ _ _ _ _ _ _ _ _
  · rw [hnd] at hdisp
    exact absurd hdisp (by simp)

lemma Status.IsOK_ok : Status.IsOK Status.ok = true := rfl

theorem claim_C1 (compressionNone : Bool) (frame_header pad : Nat)
    (comp : CompressResult) (wbStatus : Status) (tls0 : TLS) (key chunkData : List Nat)
    (offset_chunk size_value : Nat)
    (hsize : chunkData.length ≠ 0) (hcfg : compressionNone = false)
    (hen : offset_chunk = 0 ∨ tls0.compression_enabled = 1) :
    ((putChunkValidSize false Status.ok compressionNone frame_header pad comp wbStatus
        tls0 key chunkData offset_chunk size_value).tls.compression_enabled = 0
      ↔ u64add (u64sub (u64sub size_value offset_chunk) chunkData.length) frame_header
          > u64sub (u64sub (u64add size_value pad)
              (if offset_chunk = 0 then 0 else tls0.compressor_size)) comp.out.length)
    ∧ (u64add (u64sub (u64sub size_value offset_chunk) chunkData.length) frame_header
          > u64sub (u64sub (u64add size_value pad)
              (if offset_chunk = 0 then 0 else tls0.compressor_size)) comp.out.length →
        (putChunkValidSize false Status.ok compressionNone frame_header pad comp wbStatus
            tls0 key chunkData offset_chunk size_value).tls.compressor_size
          = u64sub (u64add (if offset_chunk = 0 then 0 else tls0.compressor_size)
              comp.out.length) comp.out.length
        ∧ (putChunkValidSize false Status.ok compressionNone frame_header pad comp wbStatus
            tls0 key chunkData offset_chunk size_value).tls.ts_offset
          = u64add (putChunkValidSize false Status.ok compressionNone frame_header pad comp
              wbStatus tls0 key chunkData offset_chunk size_value).tls.compressor_size
              (u64add chunkData.length frame_header)
        ∧ (putChunkValidSize false Status.ok compressionNone frame_header pad comp wbStatus
            tls0 key chunkData offset_chunk size_value).cfs
          = u64add chunkData.length frame_header) := by
  by_cases h0 : offset_chunk = 0
  · subst h0
    unfold putChunkValidSize
    simp only [Status.IsOK_ok]
    by_cases hfb : u64sub (u64sub (u64add size_value pad) 0) comp.out.length
        < u64add (u64sub (u64sub size_value 0) chunkData.length) frame_header
    · by_cases hs : comp.status.IsOK <;>
        simp [hs, hfb, hsize, hcfg, doCompression, pcvsFinish_tls_compression_enabled,
          pcvsFinish_tls_ts_offset, pcvsFinish_tls_compressor_size, pcvsFinish_cfs]
    · by_cases hs : comp.status.IsOK <;>
        simp [hs, hfb, hsize, hcfg, doCompression, pcvsFinish_tls_compression_enabled,
          pcvsFinish_tls_ts_offset, pcvsFinish_tls_compressor_size, pcvsFinish_cfs]
  · have hen1 : tls0.compression_enabled = 1 := hen.resolve_left h0
    unfold putChunkValidSize
    simp only [Status.IsOK_ok]
    by_cases hfb : u64sub (u64sub (u64add size_value pad) tls0.compressor_size) comp.out.length
        < u64add (u64sub (u64sub size_value offset_chunk) chunkData.length) frame_header
    · by_cases hs : comp.status.IsOK <;>
        simp [hs, hfb, h0, hen1, hsize, hcfg, doCompression,
          pcvsFinish_tls_compression_enabled, pcvsFinish_tls_ts_offset,
          pcvsFinish_tls_compressor_size, pcvsFinish_cfs]
    · by_cases hs : comp.status.IsOK <;>
        simp [hs, hfb, h0, hen1, hsize, hcfg, doCompression,
          pcvsFinish_tls_compression_enabled, pcvsFinish_tls_ts_offset,
          pcvsFinish_tls_compressor_size, pcvsFinish_cfs]

/-- Witness for claim C2 at a concrete input: a single-chunk compressed entry
is dispatched with size_value_compressed equal to the compressor cumulative
size. -/
theorem claim_C2_witness :
    (putChunkValidSize false Status.ok false 8 100 ⟨Status.ok, [1, 2, 3]⟩ Status.ok
        ⟨0, 0, 0, 0⟩ [107] [97, 98] 0 2).svc
      = if (doCompression false 2 && decide (u64add 2 0 = 2)) = true then
          (if (putChunkValidSize false Status.ok false 8 100 ⟨Status.ok, [1, 2, 3]⟩ Status.ok
                ⟨0, 0, 0, 0⟩ [107] [97, 98] 0 2).tls.compression_enabled = 1
           then (putChunkValidSize false Status.ok false 8 100 ⟨Status.ok, [1, 2, 3]⟩ Status.ok
                ⟨0, 0, 0, 0⟩ [107] [97, 98] 0 2).tls.compressor_size
           else u64add (putChunkValidSize false Status.ok false 8 100 ⟨Status.ok, [1, 2, 3]⟩
                Status.ok ⟨0, 0, 0, 0⟩ [107] [97, 98] 0 2).occ 2)
        else 0 :=
  claim_C2 false 8 100 ⟨Status.ok, [1, 2, 3]⟩ Status.ok ⟨0, 0, 0, 0⟩ [107] [97, 98] 0 2
    (by decide)

/-- Witness for claim C1 at a concrete input: a first chunk of 10 bytes
compressing to an 11-byte frame inside a 20-byte entry with 2 bytes of
padding overruns the best-case budget (18 > 11), so the fallback engages and
the flag drops to 0. -/
theorem claim_C1_witness :
    (putChunkValidSize false Status.ok false 8 2 ⟨Status.ok, List.replicate 11 1⟩ Status.ok
        ⟨1, 0, 0, 0⟩ [107] (List.replicate 10 9) 0 20).tls.compression_enabled = 0
    ∧ (putChunkValidSize false Status.ok false 8 2 ⟨Status.ok, List.replicate 11 1⟩ Status.ok
        ⟨1, 0, 0, 0⟩ [107] (List.replicate 10 9) 0 20).tls.ts_offset
      = u64add (putChunkValidSize false Status.ok false 8 2 ⟨Status.ok, List.replicate 11 1⟩
          Status.ok ⟨1, 0, 0, 0⟩ [107] (List.replicate 10 9) 0 20).tls.compressor_size
          (u64add 10 8) := by
  have h := claim_C1 false 8 2 ⟨Status.ok, List.replicate 11 1⟩ Status.ok
    ⟨1, 0, 0, 0⟩ [107] (List.replicate 10 9) 0 20 (by decide) rfl (Or.inl rfl)
  have hcond := (h.2 (by decide))
  exact ⟨h.1.mpr (by decide), by simpa using hcond.2.1⟩

/-- Witness for claim C5 at a concrete input: a non-first chunk arriving with
the flag already 0 leaves it 0. -/
theorem claim_C5_witness :
    (putChunkValidSize false Status.ok false 8 0 ⟨Status.ok, [1]⟩ Status.ok
        ⟨0, 5, 6, 7⟩ [107] [97] 7 9).tls.compression_enabled = 0 :=
  claim_C5 false Status.ok false 8 0 ⟨Status.ok, [1]⟩ Status.ok
    ⟨0, 5, 6, 7⟩ [107] [97] 7 9 (by decide) rfl

/-- Claim C8: NewSnapshot on an open database performs, in order, the write
buffer flush, the append-file seal, the snapshot-data request, the
construction of a read-only engine view from (dbname, readonly=true,
ignore_set, fileid_end), the retrieval of the ordered file-id list, and the
snapshot construction wrapping the live engine and the read-only view; a
failure of the snapshot-data request aborts after the first three steps and
returns a null snapshot. -/
theorem claim_C8 (dbname : String) (se_live : Nat) (o : EngineOracle) :
    (o.snapStatus.IsOK = true →
      newSnapshot false dbname se_live o =
        ([SnapEvent.flushWB, SnapEvent.sealFile, SnapEvent.getSnapshotData,
          SnapEvent.newReadonlyEngine dbname true o.fileids_ignore o.fileid_end,
          SnapEvent.getFileidsIterator, SnapEvent.buildSnapshot o.snapshot_id],
         some ⟨dbname, se_live, ⟨dbname, true, o.fileids_ignore, o.fileid_end⟩,
               o.fileidsOf o.fileids_ignore o.fileid_end, o.snapshot_id⟩))
    ∧ (o.snapStatus.IsOK = false →
      newSnapshot false dbname se_live o =
        ([SnapEvent.flushWB, SnapEvent.sealFile, SnapEvent.getSnapshotData], none)) := by
  constructor <;> intro h <;> simp [newSnapshot, h]

/-- Witness for claim C8 at a concrete oracle: with a healthy snapshot-data
request the full trace is produced and the snapshot wraps the read-only view;
with a failing one the trace stops after three steps and null is returned. -/
theorem claim_C8_witness :
    newSnapshot false "db" 3 ⟨7, Status.ok, 5, [2, 4], fun ign fe => ign ++ [fe]⟩ =
      ([SnapEvent.flushWB, SnapEvent.sealFile, SnapEvent.getSnapshotData,
        SnapEvent.newReadonlyEngine "db" true [2, 4] 7,
        SnapEvent.getFileidsIterator, SnapEvent.buildSnapshot 5],
       some ⟨"db", 3, ⟨"db", true, [2, 4], 7⟩, [2, 4, 7], 5⟩)
    ∧ newSnapshot false "db" 3 ⟨7, Status.ioError "snap", 5, [2, 4], fun ign fe => ign ++ [fe]⟩ =
      ([SnapEvent.flushWB, SnapEvent.sealFile, SnapEvent.getSnapshotData], none) :=
  ⟨(claim_C8 "db" 3 ⟨7, Status.ok, 5, [2, 4], fun ign fe => ign ++ [fe]⟩).1 rfl,
   (claim_C8 "db" 3 ⟨7, Status.ioError "snap", 5, [2, 4], fun ign fe => ign ++ [fe]⟩).2 rfl⟩

/-- Claim C10 (code bug): on an open database whose engine fails
GetNewSnapshotData, the internal NewSnapshot call returns a null snapshot and
NewIterator then dereferences that null snapshot instead of returning null:
the source has no null check between the two calls. -/
theorem claim_C10_null_deref :
    newSnapshot false "db" 0 ⟨7, Status.ioError "snapshot data failure", 5, [], fun _ _ => []⟩
      = ([SnapEvent.flushWB, SnapEvent.sealFile, SnapEvent.getSnapshotData], none)
    ∧ newIterator false "db" 0 ⟨7, Status.ioError "snapshot data failure", 5, [], fun _ _ => []⟩
      = IterResult.nullDeref :=
  ⟨rfl, rfl⟩

/-- The number of sub-chunks the splitting loop submits for a cached chunk
size S: the ceiling of S / maxc. -/
def nSubs (maxc S : Nat) : Nat := (S + maxc - 1) / maxc

/-- The k-th submission the splitting loop is expected to make: offsets form
the arithmetic progression offset_chunk + k * maxc; every sub-chunk but the
last is a non-owning window of exactly maxc bytes; the last reuses the input
chunk with its offset advanced, leaving S - k * maxc bytes. -/
def expectedSub (maxc S offset_chunk k : Nat) : Sub :=
  if k + 1 < nSubs maxc S then ⟨offset_chunk + k * maxc, maxc, true⟩
  else ⟨offset_chunk + k * maxc, S - k * maxc, false⟩

lemma nSubs_mul_ge (maxc S : Nat) (hm : 0 < maxc) : S ≤ nSubs maxc S * maxc := by
  have h : (S + maxc - 1) / maxc < nSubs maxc S + 1 := Nat.lt_succ_self _
  rw [Nat.div_lt_iff_lt_mul hm] at h
  have h2 : (nSubs maxc S + 1) * maxc = nSubs maxc S * maxc + maxc := by ring
  omega

lemma mul_lt_of_lt_nSubs (maxc S : Nat) (hm : 0 < maxc) (i : Nat)
    (hi : i < nSubs maxc S) : i * maxc < S := by
  have h : i + 1 ≤ (S + maxc - 1) / maxc := hi
  rw [Nat.le_div_iff_mul_le hm] at h
  have h2 : (i + 1) * maxc = i * maxc + maxc := by ring
  omega

lemma putChunkLoop_all_ok (maxc S oc : Nat) (pcvs : Nat → Status) (hm : 0 < maxc)
    (hok : ∀ j, j < nSubs maxc S → pcvs j = Status.ok) :
    ∀ m i, i + m = nSubs maxc S →
      putChunkLoop maxc S pcvs oc (i * maxc) i 0 =
        (Status.ok, (List.range m).map (fun k => expectedSub maxc S oc (i + k))) := by
  intro m
  induction m with
  | zero =>
    intro i hi
    have hi0 : i = nSubs maxc S := by omega
    subst hi0
    rw [putChunkLoop]
    have h1 : ¬ (0 < maxc ∧ nSubs maxc S * maxc < S) := by
      have := nSubs_mul_ge maxc S hm
      omega
    rw [dif_neg h1]
    simp
  | succ m ih =>
    intro i hi
    have hin : i < nSubs maxc S := by omega
    have hlt : i * maxc < S := mul_lt_of_lt_nSubs maxc S hm i hin
    rw [putChunkLoop, dif_pos ⟨hm, hlt⟩]
    by_cases hw : i + 1 < nSubs maxc S
    · have hlt2 : (i + 1) * maxc < S := mul_lt_of_lt_nSubs maxc S hm (i + 1) hw
      have hmul : (i + 1) * maxc = i * maxc + maxc := by ring
      have hcond : i * maxc + maxc < S - 0 := by omega
      rw [if_pos hcond, hok i hin, if_pos rfl]
      have ih2 := ih (i + 1) (by omega)
      rw [hmul] at ih2
      rw [ih2]
      simp only [List.range_succ_eq_map, List.map_cons, List.map_map, Function.comp,
        Nat.add_zero, Prod.mk.injEq, true_and, List.cons.injEq]
      refine ⟨by simp [expectedSub, hw], ?_⟩
      apply List.map_congr_left
      intro a _
      congr 1
      omega
    · have hm0 : m = 0 := by omega
      subst hm0
      have hge : S ≤ (i + 1) * maxc := by
        have h3 := nSubs_mul_ge maxc S hm
        have h4 : nSubs maxc S ≤ i + 1 := by omega
        calc S ≤ nSubs maxc S * maxc := h3
          _ ≤ (i + 1) * maxc := Nat.mul_le_mul_right maxc h4
      have hmul : (i + 1) * maxc = i * maxc + maxc := by ring
      have hcond : ¬ i * maxc + maxc < S - 0 := by omega
      rw [if_neg hcond, hok i hin, if_pos rfl]
      rw [putChunkLoop]
      have h1 : ¬ (0 < maxc ∧ i * maxc + maxc < S) := by omega
      rw [dif_neg h1]
      have hr1 : List.range 1 = [0] := rfl
      rw [hr1, List.map_cons, List.map_nil]
      simp [expectedSub, hw]

lemma putChunkLoop_first_err (maxc S oc : Nat) (pcvs : Nat → Status) (hm : 0 < maxc)
    (j : Nat) (hj : j < nSubs maxc S) (hok : ∀ t, t < j → pcvs t = Status.ok)
    (hbad : pcvs j ≠ Status.ok) :
    ∀ d i, i + d = j →
      putChunkLoop maxc S pcvs oc (i * maxc) i 0 =
        (pcvs j, (List.range (d + 1)).map (fun k => expectedSub maxc S oc (i + k))) := by
  intro d
  induction d with
  | zero =>
    intro i hi
    have hi0 : i = j := by omega
    subst hi0
    have hlt : i * maxc < S := mul_lt_of_lt_nSubs maxc S hm i hj
    rw [putChunkLoop, dif_pos ⟨hm, hlt⟩]
    by_cases hw : i + 1 < nSubs maxc S
    · have hlt2 : (i + 1) * maxc < S := mul_lt_of_lt_nSubs maxc S hm (i + 1) hw
      have hmul : (i + 1) * maxc = i * maxc + maxc := by ring
      have hcond : i * maxc + maxc < S - 0 := by omega
      rw [if_pos hcond, if_neg hbad]
      have hr1 : List.range 1 = [0] := rfl
      rw [hr1, List.map_cons, List.map_nil]
      simp [expectedSub, hw]
    · have hge : S ≤ (i + 1) * maxc := by
        have h3 := nSubs_mul_ge maxc S hm
        have h4 : nSubs maxc S ≤ i + 1 := by omega
        calc S ≤ nSubs maxc S * maxc := h3
          _ ≤ (i + 1) * maxc := Nat.mul_le_mul_right maxc h4
      have hmul : (i + 1) * maxc = i * maxc + maxc := by ring
      have hcond : ¬ i * maxc + maxc < S - 0 := by omega
      rw [if_neg hcond, if_neg hbad]
      have hr1 : List.range 1 = [0] := rfl
      rw [hr1, List.map_cons, List.map_nil]
      simp [expectedSub, hw]
  | succ d ih =>
    intro i hi
    have hij : i < j := by omega
    have hin : i < nSubs maxc S := by omega
    have hw : i + 1 < nSubs maxc S := by omega
    have hlt : i * maxc < S := mul_lt_of_lt_nSubs maxc S hm i hin
    have hlt2 : (i + 1) * maxc < S := mul_lt_of_lt_nSubs maxc S hm (i + 1) hw
    have hmul : (i + 1) * maxc = i * maxc + maxc := by ring
    have hcond : i * maxc + maxc < S - 0 := by omega
    rw [putChunkLoop, dif_pos ⟨hm, hlt⟩, if_pos hcond, hok i hij, if_pos rfl]
    have ih2 := ih (i + 1) (by omega)
    rw [hmul] at ih2
    rw [ih2]
    generalize d + 1 = D
    simp only [List.range_succ_eq_map, List.map_cons, List.map_map, Function.comp,
      Nat.add_zero, Prod.mk.injEq, true_and, List.cons.injEq]
    refine ⟨by simp [expectedSub, hw], ?_⟩
    apply List.map_congr_left
    intro a _
    congr 1
    omega

/-- Claim C4: when size_value exceeds storage__maximum_chunk_size and the
incoming chunk's size S does too, PutChunk submits ceil(S / maxc) consecutive
sub-chunks in increasing order at offsets offset_chunk + k * maxc, each of
size at most maxc, all but the last being non-owning windows of exactly maxc
bytes and the last reusing the input chunk with its offset advanced; if every
submission succeeds the final status is OK, and if a submission fails the
loop stops there and that first error is returned. -/
theorem claim_C4 (maxc S oc size_value : Nat) (pcvs : Nat → Status)
    (hm : 0 < maxc) (hS : maxc < S) (hsv : maxc < size_value) :
    ((∀ j, j < nSubs maxc S → pcvs j = Status.ok) →
      putChunk false maxc pcvs S oc size_value
        = (Status.ok, (List.range (nSubs maxc S)).map (expectedSub maxc S oc)))
    ∧ (∀ j, j < nSubs maxc S → (∀ t, t < j → pcvs t = Status.ok) →
        pcvs j ≠ Status.ok →
      putChunk false maxc pcvs S oc size_value
        = (pcvs j, (List.range (j + 1)).map (expectedSub maxc S oc)))
    ∧ (∀ k, k < nSubs maxc S →
      (expectedSub maxc S oc k).size ≤ maxc
      ∧ (expectedSub maxc S oc k).offset = oc + k * maxc
      ∧ ((expectedSub maxc S oc k).window = true ↔ k + 1 < nSubs maxc S)) := by
  have hput : putChunk false maxc pcvs S oc size_value
      = putChunkLoop maxc S pcvs oc 0 0 0 := by
    unfold putChunk
    rw [if_neg (by simp), if_neg (by omega)]
  refine ⟨?_, ?_, ?_⟩
  · intro hok
    have h := putChunkLoop_all_ok maxc S oc pcvs hm hok (nSubs maxc S) 0 (by omega)
    rw [Nat.zero_mul] at h
    rw [hput, h]
    simp
  · intro j hj hok hbad
    have h := putChunkLoop_first_err maxc S oc pcvs hm j hj hok hbad j 0 (by omega)
    rw [Nat.zero_mul] at h
    rw [hput, h]
    simp
  · intro k hk
    refine ⟨?_, ?_, ?_⟩
    · by_cases hw : k + 1 < nSubs maxc S
      · simp [expectedSub, hw]
      · have h3 := nSubs_mul_ge maxc S hm
        have h4 : nSubs maxc S ≤ k + 1 := by omega
        have h5 : nSubs maxc S * maxc ≤ (k + 1) * maxc := Nat.mul_le_mul_right maxc h4
        have h6 : (k + 1) * maxc = k * maxc + maxc := by ring
        simp only [expectedSub, if_neg hw]
        omega
    · by_cases hw : k + 1 < nSubs maxc S <;> simp [expectedSub, hw]
    · by_cases hw : k + 1 < nSubs maxc S <;> simp [expectedSub, hw]

/-- Witness for claim C4 at a concrete input: maxc = 4, a 7-byte chunk and
size_value 7 split into a 4-byte window at offset 0 and a reused 3-byte tail
at offset 4. -/
theorem claim_C4_witness :
    putChunk false 4 (fun _ => Status.ok) 7 0 7
      = (Status.ok, (List.range (nSubs 4 7)).map (expectedSub 4 7 0)) :=
  (claim_C4 4 7 0 7 (fun _ => Status.ok) (by decide) (by decide) (by decide)).1
    (fun _ _ => rfl)

end KingDB
